import Mathlib

/-!
Verification of the kapp permissions BindingValidator
(pkg/kapp/cmd/tools/cmd.go, package permissions: BindingValidator.Validate),
shallowly embedded in Lean 4.

The external collaborators (REST mapper, self-subject-access-review client,
RBAC rule lookup) are modelled as an environment of pre-resolved answers for
the one resource a Validate call inspects; the control flow of Validate itself
is translated line by line from the Go source. Validate additionally returns
a Trace recording every permission check it issued and whether the role-rule
resolver was consulted, so that claims about which collaborator calls happen
are statable.
-/

namespace KappPermissions

/-- RESTMapping.Resource as used by Validate: the group/version/resource
triple produced by the meta.RESTMapper for the binding kind of the resource. -/
structure RESTMapping where
  group : String
  version : String
  resource : String
deriving DecidableEq, Repr

/-- authv1.ResourceAttributes: one fully specified permission check.
Field nspace embeds the Go field Namespace (a Lean keyword). -/
structure ResourceAttributes where
  group : String
  version : String
  resource : String
  nspace : String
  name : String
  verb : String
deriving DecidableEq, Repr

/-- ctlres.Resource as consumed by Validate: group/version/kind plus
namespace and name of the binding resource under evaluation. -/
structure Resource where
  group : String
  version : String
  kind : String
  nspace : String
  name : String
deriving DecidableEq, Repr

/-- res.GroupVersion().WithKind(res.Kind()).String(): apimachinery formats a
GroupVersionKind as group, slash, version, then a Kind= suffix. -/
def Resource.gvkString (r : Resource) : String :=
  r.group ++ "/" ++ r.version ++ ", Kind=" ++ r.kind

/-- rbacv1.PolicyRule restricted to the fields BreakdownRule and Validate
read: verbs, apiGroups, resources, resourceNames, nonResourceURLs. -/
structure PolicyRule where
  verbs : List String
  apiGroups : List String
  resources : List String
  resourceNames : List String
  nonResourceURLs : List String
deriving DecidableEq, Repr

/-- Outcome of one round trip to the permission-check service: a definite
allow, a definite deny, or a failure of the remote call itself. -/
inductive CheckOutcome where
  | allowed
  | denied
  | transportError
deriving DecidableEq, Repr

/-- The errors Validate can return.  mappingError embeds a failed
mapper.RESTMapping call; permissionDenied and transportError embed the
non-nil errors of ValidatePermissions; fetchingRulesError embeds the
wrapped RulesForBinding failure; privilegeEscalation embeds the
errors.Join of the base escalation error with the collected errorSet,
carrying the attempted verb, the formatted GroupVersionKind and the list. -/
inductive VError where
  | mappingError (msg : String)
  | permissionDenied (attrs : ResourceAttributes)
  | transportError (attrs : ResourceAttributes)
  | fetchingRulesError (msg : String)
  | privilegeEscalation (verb : String) (gvk : String) (errs : List VError)
deriving Repr

/-- Modelled from the spec: ValidatePermissions (the Permission Checker,
package permissions, not under src/) issues one SelfSubjectAccessReview
round trip and returns nil iff the service answered allowed; a definite
denial and a transport failure both surface as distinct non-nil errors,
never conflated with each other or with nil. -/
def ValidatePermissions (check : ResourceAttributes → CheckOutcome)
    (attrs : ResourceAttributes) : Option VError :=
  match check attrs with
  | .allowed => none
  | .denied => some (.permissionDenied attrs)
  | .transportError => some (.transportError attrs)

/-- validation.BreakdownRule from k8s.io/component-helpers
auth/rbac/validation/policy_comparator.go (pinned by URL in the source
comment): the cross-product of apiGroups, resources and verbs, each subrule
carrying the whole resourceNames list unchanged, followed by the
cross-product of nonResourceURLs and verbs. -/
def BreakdownRule (rule : PolicyRule) : List PolicyRule :=
  (rule.apiGroups.map (fun group =>
    (rule.resources.map (fun resource =>
      rule.verbs.map (fun verb =>
        { verbs := [verb], apiGroups := [group], resources := [resource],
          resourceNames := rule.resourceNames, nonResourceURLs := [] }))).flatten)).flatten
  ++ (rule.nonResourceURLs.map (fun url =>
      rule.verbs.map (fun verb =>
        { verbs := [verb], apiGroups := [], resources := [],
          resourceNames := [], nonResourceURLs := [url] }))).flatten

/-- The ResourceAttributes Validate builds for one decomposed subrule:
group, resource and verb are the first entries of the subrule lists, the
version is left empty, the namespace is that of the resource, and the
name is the first resourceName when that list is non-empty, else empty.
Caution on fidelity: the source indexes element 0 of apiGroups, resources
and verbs unguarded, so it panics on the empty-group empty-resource
subrules that BreakdownRule emits for nonResourceURLs; this model
totalizes that indexing with headD. The two agree exactly on subrules
whose three lists are non-empty, which is every subrule BreakdownRule
emits from a rule with no nonResourceURLs; the theorems about the
escalation loop therefore hypothesize rules free of nonResourceURLs and
say nothing about the panic region. -/
def subruleAttrs (res : Resource) (subrule : PolicyRule) : ResourceAttributes :=
  { group := subrule.apiGroups.headD ""
    version := ""
    resource := subrule.resources.headD ""
    nspace := res.nspace
    name := subrule.resourceNames.headD ""
    verb := subrule.verbs.headD "" }

/-- The ResourceAttributes of the early bind check: the mapped
group/version/resource, the namespace and name of the resource, and the
synthetic verb bind. -/
def bindAttrs (mapping : RESTMapping) (res : Resource) : ResourceAttributes :=
  { group := mapping.group
    version := mapping.version
    resource := mapping.resource
    nspace := res.nspace
    name := res.name
    verb := "bind" }

/-- The ResourceAttributes of a direct check for the literal verb against
the binding resource itself. -/
def directAttrs (mapping : RESTMapping) (res : Resource) (verb : String) :
    ResourceAttributes :=
  { group := mapping.group
    version := mapping.version
    resource := mapping.resource
    nspace := res.nspace
    name := res.name
    verb := verb }

/-- Record of the collaborator calls one Validate invocation issued:
the permission checks in order, and whether RulesForBinding was called. -/
structure Trace where
  checks : List ResourceAttributes
  rulesResolved : Bool
deriving DecidableEq, Repr

/-- The environment of one Validate call: the permission-check oracle, the
mapper answer for the binding kind of the resource, and the answer
RulesForBinding would give for this binding.  The two Except values stand
for the fallible collaborator calls (AddressingError, and NotFoundError or
TransportError of the Rule Resolver, modelled from the spec since
RulesForBinding is not under src/). -/
structure Env where
  check : ResourceAttributes → CheckOutcome
  restMapping : Except String RESTMapping
  rulesForBinding : Except String (List PolicyRule)

/-- BindingValidator.Validate, translated from the Go source, paired with
the Trace of collaborator calls.  none means authorized. -/
def Validate (env : Env) (res : Resource) (verb : String) :
    Option VError × Trace :=
  match env.restMapping with
  | .error e => (some (.mappingError e), ⟨[], false⟩)
  | .ok mapping =>
    if verb = "create" ∨ verb = "update" then
      match ValidatePermissions env.check (bindAttrs mapping res) with
      | none => (none, ⟨[bindAttrs mapping res], false⟩)
      | some _ =>
        match ValidatePermissions env.check (directAttrs mapping res verb) with
        | some err => (some err, ⟨[bindAttrs mapping res, directAttrs mapping res verb], false⟩)
        | none =>
          match env.rulesForBinding with
          | .error e =>
            (some (.fetchingRulesError e),
             ⟨[bindAttrs mapping res, directAttrs mapping res verb], true⟩)
          | .ok rules =>
            let subAttrs := ((rules.map BreakdownRule).flatten).map (subruleAttrs res)
            let errorSet := subAttrs.filterMap (ValidatePermissions env.check)
            let tr : Trace :=
              ⟨[bindAttrs mapping res, directAttrs mapping res verb] ++ subAttrs, true⟩
            if errorSet.length > 0 then
              (some (.privilegeEscalation verb res.gvkString errorSet), tr)
            else
              (none, tr)
    else
      (ValidatePermissions env.check (directAttrs mapping res verb),
       ⟨[directAttrs mapping res verb], false⟩)

/-! Concrete fixtures used by witnesses and counterexamples. -/

/-- A concrete RoleBinding resource. -/
def res0 : Resource :=
  { group := "rbac.authorization.k8s.io", version := "v1", kind := "RoleBinding",
    nspace := "ns1", name := "rb1" }

/-- The REST mapping of res0. -/
def m0 : RESTMapping :=
  { group := "rbac.authorization.k8s.io", version := "v1", resource := "rolebindings" }

/-- A single-verb single-group single-resource role rule: get pods. -/
def ruleW : PolicyRule :=
  { verbs := ["get"], apiGroups := [""], resources := ["pods"],
    resourceNames := [], nonResourceURLs := [] }

/-- Shared shape of the escalation branch: once the mapping succeeded, the
verb is create or update, the bind check did not come back allowed and the
direct check did, Validate is exactly the rule-resolution, decomposition
and aggregation stage of the source. -/
theorem validate_escalation_eq (env : Env) (res : Resource) (verb : String)
    (mapping : RESTMapping)
    (hverb : verb = "create" ∨ verb = "update")
    (hmap : env.restMapping = .ok mapping)
    (hbind : env.check (bindAttrs mapping res) ≠ .allowed)
    (hdirect : env.check (directAttrs mapping res verb) = .allowed) :
    Validate env res verb =
      (match env.rulesForBinding with
       | .error e =>
         (some (.fetchingRulesError e),
          ⟨[bindAttrs mapping res, directAttrs mapping res verb], true⟩)
       | .ok rules =>
         let subAttrs := ((rules.map BreakdownRule).flatten).map (subruleAttrs res)
         let errorSet := subAttrs.filterMap (ValidatePermissions env.check)
         let tr : Trace :=
           ⟨[bindAttrs mapping res, directAttrs mapping res verb] ++ subAttrs, true⟩
         if errorSet.length > 0 then
           (some (.privilegeEscalation verb res.gvkString errorSet), tr)
         else (none, tr)) := by
  cases hc : env.check (bindAttrs mapping res) with
  | allowed => exact absurd hc hbind
  | denied => simp [Validate, hmap, hverb, ValidatePermissions, hc, hdirect]
  | transportError => simp [Validate, hmap, hverb, ValidatePermissions, hc, hdirect]

/-- C2: for every binding resource and verb in create/update, if the
permission check for the synthetic verb bind on the binding resource
returns allowed, Validate returns authorized (none) having issued exactly
that one check and without calling the role-rule resolver. -/
theorem bind_allowed_short_circuits (env : Env) (res : Resource) (verb : String)
    (mapping : RESTMapping)
    (hverb : verb = "create" ∨ verb = "update")
    (hmap : env.restMapping = .ok mapping)
    (hbind : env.check (bindAttrs mapping res) = .allowed) :
    Validate env res verb = (none, ⟨[bindAttrs mapping res], false⟩) := by
  simp [Validate, hmap, hverb, ValidatePermissions, hbind]

/-- Environment where every permission check is allowed and the rule
resolver would fail if it were ever consulted. -/
def envC2 : Env :=
  { check := fun _ => .allowed
    restMapping := .ok m0
    rulesForBinding := .error "resolver must not be called" }

/-- Witness for C2 at a concrete input: bind is allowed, so Validate is
authorized without touching the (failing) rule resolver. -/
theorem bind_allowed_short_circuits_witness :
    Validate envC2 res0 "create" = (none, ⟨[bindAttrs m0 res0], false⟩) :=
  bind_allowed_short_circuits envC2 res0 "create" m0 (Or.inl rfl) rfl rfl

/-- C3: for create/update, when both the bind check and the direct check
for the literal verb are denied, Validate returns the direct-verb denial
itself (a permissionDenied for the direct attributes, never a
privilegeEscalation), and the role-rule resolver is not called. -/
theorem direct_denial_propagated (env : Env) (res : Resource) (verb : String)
    (mapping : RESTMapping)
    (hverb : verb = "create" ∨ verb = "update")
    (hmap : env.restMapping = .ok mapping)
    (hbind : env.check (bindAttrs mapping res) = .denied)
    (hdirect : env.check (directAttrs mapping res verb) = .denied) :
    Validate env res verb =
      (some (.permissionDenied (directAttrs mapping res verb)),
       ⟨[bindAttrs mapping res, directAttrs mapping res verb], false⟩) := by
  simp [Validate, hmap, hverb, ValidatePermissions, hbind, hdirect]

/-- Environment where every permission check is denied and the rule
resolver would fail if it were ever consulted. -/
def envC3 : Env :=
  { check := fun _ => .denied
    restMapping := .ok m0
    rulesForBinding := .error "resolver must not be called" }

/-- Witness for C3 at a concrete input: bind and update both denied, the
update denial itself comes back. -/
theorem direct_denial_propagated_witness :
    Validate envC3 res0 "update" =
      (some (.permissionDenied (directAttrs m0 res0 "update")),
       ⟨[bindAttrs m0 res0, directAttrs m0 res0 "update"], false⟩) :=
  direct_denial_propagated envC3 res0 "update" m0 (Or.inr rfl) rfl rfl rfl

/-- C6: for every verb outside create/update, Validate is exactly the
single direct permission check for that verb against the binding resource,
passed through unchanged, and the role-rule resolver receives zero calls. -/
theorem other_verbs_direct_check (env : Env) (res : Resource) (verb : String)
    (mapping : RESTMapping)
    (hverb : ¬(verb = "create" ∨ verb = "update"))
    (hmap : env.restMapping = .ok mapping) :
    Validate env res verb =
      (ValidatePermissions env.check (directAttrs mapping res verb),
       ⟨[directAttrs mapping res verb], false⟩) := by
  simp [Validate, hmap, hverb]

/-- Witness for C6 at a concrete input: a delete under the all-denied
environment is the direct denial of delete, with one check issued and the
resolver unused. -/
theorem other_verbs_direct_check_witness :
    Validate envC3 res0 "delete" =
      (some (.permissionDenied (directAttrs m0 res0 "delete")),
       ⟨[directAttrs m0 res0 "delete"], false⟩) := by
  have h := other_verbs_direct_check envC3 res0 "delete" m0 (by decide) rfl
  exact h

/-- C7: decomposing the rule with verbs get and list, the empty group and
resources pods and services yields exactly the four atomic rules of the
cross-product, each with exactly one verb, one group and one resource. -/
theorem breakdown_cross_product :
    BreakdownRule
      { verbs := ["get", "list"], apiGroups := [""], resources := ["pods", "services"],
        resourceNames := [], nonResourceURLs := [] } =
      [ { verbs := ["get"], apiGroups := [""], resources := ["pods"],
          resourceNames := [], nonResourceURLs := [] },
        { verbs := ["list"], apiGroups := [""], resources := ["pods"],
          resourceNames := [], nonResourceURLs := [] },
        { verbs := ["get"], apiGroups := [""], resources := ["services"],
          resourceNames := [], nonResourceURLs := [] },
        { verbs := ["list"], apiGroups := [""], resources := ["services"],
          resourceNames := [], nonResourceURLs := [] } ] := by
  rfl

/-- C10: for every verb, when the REST mapping of the binding resource
fails, Validate returns that mapping error with no permission check issued
and no rule resolution: the addressing step precedes the verb switch. -/
theorem mapping_error_first (env : Env) (res : Resource) (verb : String)
    (e : String)
    (hmap : env.restMapping = .error e) :
    Validate env res verb = (some (.mappingError e), ⟨[], false⟩) := by
  simp [Validate, hmap]

/-- Environment whose mapper fails. -/
def envC10 : Env :=
  { check := fun _ => .allowed
    restMapping := .error "no matches for kind"
    rulesForBinding := .ok [] }

/-- Witness for C10 at concrete inputs, both for an escalation-sensitive
verb and for a plain one: the mapping error comes back before any check. -/
theorem mapping_error_first_witness :
    Validate envC10 res0 "create" = (some (.mappingError "no matches for kind"), ⟨[], false⟩) ∧
    Validate envC10 res0 "get" = (some (.mappingError "no matches for kind"), ⟨[], false⟩) :=
  ⟨mapping_error_first envC10 res0 "create" "no matches for kind" rfl,
   mapping_error_first envC10 res0 "get" "no matches for kind" rfl⟩

/-- Second projection of a branch on a pair whose second components agree. -/
theorem snd_ite_pair {c : Prop} [Decidable c] {α β : Type} (a b : α) (t : β) :
    (if c then (a, t) else (b, t)).2 = t := by
  by_cases hc : c
  · rw [if_pos hc]
  · rw [if_neg hc]

/-- First projection of a branch on pairs when the condition holds. -/
theorem fst_ite_pair_pos {c : Prop} [Decidable c] (hc : c) {α β : Type}
    (a b : α) (t s : β) :
    (if c then (a, t) else (b, s)).1 = a := by
  rw [if_pos hc]

/-- First projection of a branch on pairs when the condition fails. -/
theorem fst_ite_pair_neg {c : Prop} [Decidable c] (hc : ¬c) {α β : Type}
    (a b : α) (t s : β) :
    (if c then (a, t) else (b, s)).1 = b := by
  rw [if_neg hc]

/-- Shared shape of the escalation-branch trace: with the rules resolved
successfully, the checks issued are exactly the bind check, the direct
check, and one check per decomposed subrule, in order. -/
theorem validate_escalation_trace (env : Env) (res : Resource) (verb : String)
    (mapping : RESTMapping) (rules : List PolicyRule)
    (hverb : verb = "create" ∨ verb = "update")
    (hmap : env.restMapping = .ok mapping)
    (hbind : env.check (bindAttrs mapping res) ≠ .allowed)
    (hdirect : env.check (directAttrs mapping res verb) = .allowed)
    (hrules : env.rulesForBinding = .ok rules) :
    (Validate env res verb).2 =
      ⟨[bindAttrs mapping res, directAttrs mapping res verb] ++
        ((rules.map BreakdownRule).flatten).map (subruleAttrs res), true⟩ := by
  rw [validate_escalation_eq env res verb mapping hverb hmap hbind hdirect, hrules]
  exact snd_ite_pair _ _ _

/-- C1 counterexample: in an environment whose bind check fails with a
transport error (and every other check is allowed, with an empty rule
list), Validate for create does not propagate the transport failure as a
hard error: it returns authorized, and its trace shows it continued to the
direct-verb check and to rule resolution. -/
def envC1 : Env :=
  { check := fun a => if a.verb = "bind" then .transportError else .allowed
    restMapping := .ok m0
    rulesForBinding := .ok [] }

/-- C1 counterexample theorem: the bind check transport-errors, yet
Validate returns none and its trace records both the direct check and a
rule resolution, refuting immediate propagation. -/
theorem bind_transport_error_not_propagated :
    envC1.check (bindAttrs m0 res0) = .transportError ∧
    Validate envC1 res0 "create" =
      (none, ⟨[bindAttrs m0 res0, directAttrs m0 res0 "create"], true⟩) :=
  ⟨rfl, rfl⟩

/-- C1 amended: for create/update, any non-allowed outcome of the bind
check, definite denial and transport failure alike, falls through to the
direct-verb check; transport failures of the bind check are not
propagated immediately. -/
theorem bind_failure_falls_through (env : Env) (res : Resource) (verb : String)
    (mapping : RESTMapping)
    (hverb : verb = "create" ∨ verb = "update")
    (hmap : env.restMapping = .ok mapping)
    (hbind : env.check (bindAttrs mapping res) ≠ .allowed) :
    directAttrs mapping res verb ∈ (Validate env res verb).2.checks := by
  cases hd : env.check (directAttrs mapping res verb) with
  | allowed =>
    cases hr : env.rulesForBinding with
    | error e =>
      rw [validate_escalation_eq env res verb mapping hverb hmap hbind hd, hr]
      simp
    | ok rules =>
      rw [validate_escalation_trace env res verb mapping rules hverb hmap hbind hd hr]
      simp
  | denied =>
    cases hc : env.check (bindAttrs mapping res) with
    | allowed => exact absurd hc hbind
    | denied => simp [Validate, hmap, hverb, ValidatePermissions, hc, hd]
    | transportError => simp [Validate, hmap, hverb, ValidatePermissions, hc, hd]
  | transportError =>
    cases hc : env.check (bindAttrs mapping res) with
    | allowed => exact absurd hc hbind
    | denied => simp [Validate, hmap, hverb, ValidatePermissions, hc, hd]
    | transportError => simp [Validate, hmap, hverb, ValidatePermissions, hc, hd]

/-- Witness for the amended C1 at a concrete input: under the
transport-failing bind check, the direct create check is still issued. -/
theorem bind_failure_falls_through_witness :
    directAttrs m0 res0 "create" ∈ (Validate envC1 res0 "create").2.checks :=
  bind_failure_falls_through envC1 res0 "create" m0 (Or.inl rfl) rfl (by decide)

/-- C4: in the escalation path (create/update, bind denied, direct verb
allowed, rules resolved), for role rules free of nonResourceURLs (where
the model coincides with the source, see subruleAttrs), every atomic rule
decomposed from the role rules is permission-checked exactly once with no
early exit (the check trace is exactly one check per decomposed subrule,
after the two gate checks), the failures collected are exactly the
denied-or-errored atomic checks, and if any exist Validate fails with a
privilegeEscalation carrying the attempted verb, the fully-qualified kind
and the complete failure list. -/
theorem escalation_checks_complete (env : Env) (res : Resource) (verb : String)
    (mapping : RESTMapping) (rules : List PolicyRule)
    (hverb : verb = "create" ∨ verb = "update")
    (hmap : env.restMapping = .ok mapping)
    (hbind : env.check (bindAttrs mapping res) = .denied)
    (hdirect : env.check (directAttrs mapping res verb) = .allowed)
    (hrules : env.rulesForBinding = .ok rules)
    (_hnru : ∀ rule ∈ rules, rule.nonResourceURLs = []) :
    (Validate env res verb).2.checks =
      [bindAttrs mapping res, directAttrs mapping res verb] ++
        ((rules.map BreakdownRule).flatten).map (subruleAttrs res) ∧
    ((((((rules.map BreakdownRule).flatten).map (subruleAttrs res)).filterMap
        (ValidatePermissions env.check)).length > 0) →
      (Validate env res verb).1 =
        some (.privilegeEscalation verb res.gvkString
          ((((rules.map BreakdownRule).flatten).map (subruleAttrs res)).filterMap
            (ValidatePermissions env.check)))) := by
  have hbind' : env.check (bindAttrs mapping res) ≠ .allowed := by simp [hbind]
  constructor
  · rw [validate_escalation_trace env res verb mapping rules hverb hmap hbind' hdirect hrules]
  · intro hlen
    rw [validate_escalation_eq env res verb mapping hverb hmap hbind' hdirect, hrules]
    exact fst_ite_pair_pos hlen _ _ _ _

/-- Environment for the C4 witness: bind denied, any check on pods denied,
everything else allowed; the bound role grants get on pods. -/
def envC4 : Env :=
  { check := fun a =>
      if a.verb = "bind" then .denied
      else if a.resource = "pods" then .denied
      else .allowed
    restMapping := .ok m0
    rulesForBinding := .ok [ruleW] }

/-- Witness for C4 at a concrete input: the get-pods atomic check is
issued after the two gate checks, and since it is denied Validate fails
with the escalation error carrying that exact failure. -/
theorem escalation_checks_complete_witness :
    (Validate envC4 res0 "create").2.checks =
      [bindAttrs m0 res0, directAttrs m0 res0 "create"] ++
        (([ruleW].map BreakdownRule).flatten).map (subruleAttrs res0) ∧
    (Validate envC4 res0 "create").1 =
      some (.privilegeEscalation "create" res0.gvkString
        (((([ruleW].map BreakdownRule).flatten).map (subruleAttrs res0)).filterMap
          (ValidatePermissions envC4.check))) :=
  ⟨(escalation_checks_complete envC4 res0 "create" m0 [ruleW]
      (Or.inl rfl) rfl rfl rfl rfl (by decide)).1,
   (escalation_checks_complete envC4 res0 "create" m0 [ruleW]
      (Or.inl rfl) rfl rfl rfl rfl (by decide)).2 (by decide)⟩

/-- C5: for create/update with bind denied, the direct verb allowed and
the rules resolved, for role rules free of nonResourceURLs (where the
model coincides with the source, see subruleAttrs), if every decomposed
atomic check succeeds (the collected failure set is empty) then Validate
returns authorized. -/
theorem escalation_success_authorized (env : Env) (res : Resource) (verb : String)
    (mapping : RESTMapping) (rules : List PolicyRule)
    (hverb : verb = "create" ∨ verb = "update")
    (hmap : env.restMapping = .ok mapping)
    (hbind : env.check (bindAttrs mapping res) = .denied)
    (hdirect : env.check (directAttrs mapping res verb) = .allowed)
    (hrules : env.rulesForBinding = .ok rules)
    (_hnru : ∀ rule ∈ rules, rule.nonResourceURLs = [])
    (hall : ((((rules.map BreakdownRule).flatten).map (subruleAttrs res)).filterMap
        (ValidatePermissions env.check)) = []) :
    (Validate env res verb).1 = none := by
  rw [validate_escalation_eq env res verb mapping hverb hmap (by simp [hbind]) hdirect, hrules]
  exact fst_ite_pair_neg (by rw [hall]; simp) _ _ _ _

/-- Environment for the C5 witness: only bind is denied, every other
check (including the get-pods atomic check) is allowed. -/
def envC5 : Env :=
  { check := fun a => if a.verb = "bind" then .denied else .allowed
    restMapping := .ok m0
    rulesForBinding := .ok [ruleW] }

/-- Witness for C5 at a concrete input: all atomic checks succeed, so the
create is authorized. -/
theorem escalation_success_authorized_witness :
    (Validate envC5 res0 "create").1 = none :=
  escalation_success_authorized envC5 res0 "create" m0 [ruleW]
    (Or.inl rfl) rfl rfl rfl rfl (by decide) rfl

/-- C8: in the escalation path, for role rules free of nonResourceURLs
(where the model coincides with the source, see subruleAttrs), the
permission check issued for a decomposed subrule uses as its checked name
the first resource name of the subrule when that list is non-empty, and
the empty name (any name) when it is empty. -/
theorem subrule_first_name_checked (env : Env) (res : Resource) (verb : String)
    (mapping : RESTMapping) (rules : List PolicyRule) (subrule : PolicyRule)
    (hverb : verb = "create" ∨ verb = "update")
    (hmap : env.restMapping = .ok mapping)
    (hbind : env.check (bindAttrs mapping res) = .denied)
    (hdirect : env.check (directAttrs mapping res verb) = .allowed)
    (hrules : env.rulesForBinding = .ok rules)
    (_hnru : ∀ rule ∈ rules, rule.nonResourceURLs = [])
    (hsub : subrule ∈ (rules.map BreakdownRule).flatten) :
    subruleAttrs res subrule ∈ (Validate env res verb).2.checks ∧
    (subruleAttrs res subrule).name =
      (match subrule.resourceNames with
       | [] => ""
       | n :: _ => n) := by
  constructor
  · rw [validate_escalation_trace env res verb mapping rules hverb hmap
      (by simp [hbind]) hdirect hrules]
    exact List.mem_append_right _ (List.mem_map_of_mem _ hsub)
  · cases hn : subrule.resourceNames <;> simp [subruleAttrs, hn]

/-- A role rule carrying two resource names. -/
def ruleN : PolicyRule :=
  { verbs := ["get"], apiGroups := [""], resources := ["secrets"],
    resourceNames := ["a", "b"], nonResourceURLs := [] }

/-- Environment for the C8 witness: bind denied, all else allowed, the
bound role granting get on two named secrets. -/
def envC8 : Env :=
  { check := fun a => if a.verb = "bind" then .denied else .allowed
    restMapping := .ok m0
    rulesForBinding := .ok [ruleN] }

/-- Witness for C8 at a concrete input: the decomposed subrule keeps both
names, and the check issued for it carries the first name only. -/
theorem subrule_first_name_checked_witness :
    subruleAttrs res0 ruleN ∈ (Validate envC8 res0 "create").2.checks ∧
    (subruleAttrs res0 ruleN).name =
      (match ruleN.resourceNames with
       | [] => ""
       | n :: _ => n) :=
  subrule_first_name_checked envC8 res0 "create" m0 [ruleN] ruleN
    (Or.inl rfl) rfl rfl rfl rfl (by decide) (by decide)

/-- C9: in the escalation path, when rule resolution fails Validate
returns that failure wrapped as a fetchingRulesError, no atomic check is
issued (the trace holds only the two gate checks) and no
privilegeEscalation is produced. -/
theorem rules_error_wrapped (env : Env) (res : Resource) (verb : String)
    (mapping : RESTMapping) (e : String)
    (hverb : verb = "create" ∨ verb = "update")
    (hmap : env.restMapping = .ok mapping)
    (hbind : env.check (bindAttrs mapping res) = .denied)
    (hdirect : env.check (directAttrs mapping res verb) = .allowed)
    (hrules : env.rulesForBinding = .error e) :
    Validate env res verb =
      (some (.fetchingRulesError e),
       ⟨[bindAttrs mapping res, directAttrs mapping res verb], true⟩) := by
  rw [validate_escalation_eq env res verb mapping hverb hmap (by simp [hbind]) hdirect, hrules]

/-- Environment for the C9 witness: bind denied, all else allowed, the
rule resolver failing. -/
def envC9 : Env :=
  { check := fun a => if a.verb = "bind" then .denied else .allowed
    restMapping := .ok m0
    rulesForBinding := .error "role not found" }

/-- Witness for C9 at a concrete input: the wrapped resolution failure
comes back with only the two gate checks in the trace. -/
theorem rules_error_wrapped_witness :
    Validate envC9 res0 "update" =
      (some (.fetchingRulesError "role not found"),
       ⟨[bindAttrs m0 res0, directAttrs m0 res0 "update"], true⟩) :=
  rules_error_wrapped envC9 res0 "update" m0 "role not found"
    (Or.inr rfl) rfl rfl rfl rfl

end KappPermissions
